import Mathlib

/-!
Verification of the rate-estimation core of `interface/concurrent.py`
(classes `FirstStepRate`, `FirstPassageRate`, `Bootstrap`).

Numbers are modelled as exact rationals.  A Python float value is
modelled as `Option ℚ`: `some q` is a finite value, `none` a non-finite
one (NaN or an infinity).  In the source a non-finite value enters
through `np.mean` of an empty array, which is NaN, and then spreads
through every arithmetic operation; division by zero (which numpy maps
to an infinity or NaN with a warning, never an exception) is also
mapped to `none`.  All theorems whose conclusions assert a finite value
carry hypotheses that keep every divisor nonzero, so on their domain
the model and IEEE evaluation agree exactly.
-/

namespace Multistrand

/-- Outcome tags a completed trial can carry (`Options.STR_SUCCESS`,
`Options.STR_FAILURE`, and the remaining tags of the data model).
First-passage time-out results carry the Python value `None` instead of
a tag, which is modelled by `Option Tag` at the record level. -/
inductive Tag where
  | success
  | failure
  | altSuccess
  | timeout
  | noInitialMoves
  | simError
  deriving DecidableEq

/-- One completed simulation trial as `concurrent.py` reads it: a result
object with fields `tag` (a tag string or Python `None`), `time`,
`collision_rate` and `type_name`. -/
structure TrialResult where
  tag : Option Tag
  time : ℚ
  collision_rate : ℚ
  type_name : String
  deriving DecidableEq

/-- Finite Python floats are `some q`; `none` is a non-finite float. -/
abbrev PFloat : Type := Option ℚ

/-- Addition on modelled floats: non-finite values propagate. -/
def pAdd : PFloat → PFloat → PFloat
  | some a, some b => some (a + b)
  | _, _ => none

/-- Multiplication on modelled floats: non-finite values propagate
(IEEE `NaN * x = NaN` for every `x`, including `0`). -/
def pMul : PFloat → PFloat → PFloat
  | some a, some b => some (a * b)
  | _, _ => none

/-- Division on modelled floats: a non-finite operand propagates, and a
zero divisor yields a non-finite value (numpy produces an infinity or
NaN with a runtime warning). -/
def pDiv : PFloat → PFloat → PFloat
  | some a, some b => if b = 0 then none else some (a / b)
  | _, _ => none

/-- Model of `np.mean` on an array of finite values: the arithmetic mean,
and NaN (`none`) on an empty array. -/
def pMean (l : List ℚ) : PFloat :=
  if l = [] then none else some (l.sum / (l.length : ℚ))

/-- Line 17 of `concurrent.py`: `MINIMUM_RATE = 1e-18`. -/
def MINIMUM_RATE : ℚ := 1 / 10 ^ 18

/-- The state a `FirstStepRate` object carries after `process` /
`castToNumpyArray`: the concentration `z` and the four per-trial arrays.
`was_success` and `was_failure` hold the 0/1 indicator integers built on
lines 91 and 92. -/
structure FirstStepRate where
  z : ℚ
  collision_rates : List ℚ
  was_success : List ℕ
  was_failure : List ℕ
  time : List ℚ
  deriving DecidableEq

/-- `FirstStepRate.__init__` with a dataset: `process` (lines 79 to 95)
stores the concentration and the four arrays extracted from the dataset. -/
def FirstStepRate.ofDataset (dataset : List TrialResult) (concentration : ℚ) :
    FirstStepRate where
  z := concentration
  collision_rates := dataset.map (fun i => i.collision_rate)
  was_success := dataset.map (fun i => if i.tag = some Tag.success then 1 else 0)
  was_failure := dataset.map (fun i => if i.tag = some Tag.failure then 1 else 0)
  time := dataset.map (fun i => i.time)

/-- `generateRates` line 101: times of the trials flagged as successes. -/
def FirstStepRate.forward_times (r : FirstStepRate) : List ℚ :=
  ((r.time.zip r.was_success).filter (fun p => p.2 == 1)).map (fun p => p.1)

/-- `generateRates` line 102: times of the trials flagged as failures. -/
def FirstStepRate.reverse_times (r : FirstStepRate) : List ℚ :=
  ((r.time.zip r.was_failure).filter (fun p => p.2 == 1)).map (fun p => p.1)

/-- `generateRates` line 104: collision rates of the success trials. -/
def FirstStepRate.collision_forward (r : FirstStepRate) : List ℚ :=
  ((r.collision_rates.zip r.was_success).filter (fun p => p.2 == 1)).map (fun p => p.1)

/-- `generateRates` line 105: collision rates of the failure trials. -/
def FirstStepRate.collision_reverse (r : FirstStepRate) : List ℚ :=
  ((r.collision_rates.zip r.was_failure).filter (fun p => p.2 == 1)).map (fun p => p.1)

/-- `generateRates` line 107: `nForward = sum(was_success)`. -/
def FirstStepRate.nForward (r : FirstStepRate) : ℕ := r.was_success.sum

/-- `generateRates` line 108: `nReverse = sum(was_failure)`. -/
def FirstStepRate.nReverse (r : FirstStepRate) : ℕ := r.was_failure.sum

/-- `generateRates` line 109: `nTotal = nForward + nReverse`. -/
def FirstStepRate.nTotal (r : FirstStepRate) : ℕ := r.nForward + r.nReverse

/-- `k1` (lines 112 to 119): `MINIMUM_RATE` when `nTotal == 0`, otherwise
`nForward / nTotal * np.mean(collision_forward)`. -/
def FirstStepRate.k1 (r : FirstStepRate) : PFloat :=
  if r.nTotal = 0 then some MINIMUM_RATE
  else pMul (some ((r.nForward : ℚ) / (r.nTotal : ℚ))) (pMean r.collision_forward)

/-- `kEff` (lines 143 to 181).  The argument models the optional
`concentration` parameter: when it is `none` the stored `z` is used.
The local `kcollision`/`dTcoll` pair of lines 156 and 164 is dead code
(the `if(True)` branch on line 166 always takes the specific collision
rates), so it is not part of the returned value. -/
def FirstStepRate.kEff (r : FirstStepRate) (concentration : Option ℚ) : PFloat :=
  let z := concentration.getD r.z
  if r.nForward = 0 then some MINIMUM_RATE
  else
    let dTsuccess_uni := pMean r.forward_times
    let dTfail_uni := pMean r.reverse_times
    let kcollision_foward := pMean r.collision_forward
    let kcollision_reverse := pMean r.collision_reverse
    let multiple : ℚ := (r.nReverse : ℚ) / (r.nForward : ℚ)
    let dTcoll_forward := pDiv (some 1) (pMul kcollision_foward (some z))
    let dTcoll_reverse := pDiv (some 1) (pMul kcollision_reverse (some z))
    let dTfail := pAdd dTcoll_reverse dTfail_uni
    let dTforward := pAdd dTcoll_forward dTsuccess_uni
    let dTcorrect := pAdd (pMul dTfail (some multiple)) dTforward
    pMul (pDiv (some 1) dTcorrect) (pDiv (some 1) (some z))

/-- `merge` (lines 248 to 260), data effect: the four arrays are
concatenated and the derived rates regenerated; the stored `z` of the
receiver is kept unchanged whatever `that.z` is. -/
def FirstStepRate.merge (self that : FirstStepRate) : FirstStepRate where
  z := self.z
  collision_rates := self.collision_rates ++ that.collision_rates
  was_success := self.was_success ++ that.was_success
  was_failure := self.was_failure ++ that.was_failure
  time := self.time ++ that.time

/-- `merge` line 250: the mismatched-concentration check.  `true` means
the message `Error! Cannot combine results from different concentrations`
is printed; the method then continues and merges regardless. -/
def FirstStepRate.mergeReportsError (self that : FirstStepRate) : Bool :=
  decide (¬ self.z = that.z)

/-- `resample` (lines 213 to 236): a fresh object at the same `z` whose
arrays hold `N = len(collision_rates)` entries drawn by index from the
original arrays.  `idx` is the stream of indices produced by
`int(np.floor(np.random.uniform(high=N)))`; each drawn value lies below
`N`, and theorems that depend on the entries carry that bound (the
`getD` default is never read under it). -/
def FirstStepRate.resample (r : FirstStepRate) (idx : ℕ → ℕ) : FirstStepRate where
  z := r.z
  collision_rates :=
    (List.range r.collision_rates.length).map (fun i => r.collision_rates.getD (idx i) 0)
  was_success :=
    (List.range r.collision_rates.length).map (fun i => r.was_success.getD (idx i) 0)
  was_failure :=
    (List.range r.collision_rates.length).map (fun i => r.was_failure.getD (idx i) 0)
  time :=
    (List.range r.collision_rates.length).map (fun i => r.time.getD (idx i) 0)

/-- The state a `FirstPassageRate` object carries: concentration, the
array of all trial times, and the list of non-success results. -/
structure FirstPassageRate where
  concentration : ℚ
  times : List ℚ
  timeouts : List TrialResult
  deriving DecidableEq

/-- `FirstPassageRate.process` (lines 297 to 301): `times` takes every
trial's time; `timeouts` keeps the results whose tag is not
`STR_SUCCESS`. -/
def FirstPassageRate.ofDataset (dataset : List TrialResult) (concentration : ℚ) :
    FirstPassageRate where
  concentration := concentration
  times := dataset.map (fun i => i.time)
  timeouts := dataset.filter (fun i => !(i.tag == some Tag.success))

/-- `FirstPassageRate.resample` (lines 307 to 324): a fresh object at the
same concentration, `times` drawn by index with replacement; the new
object's `timeouts` list stays the empty list of the dataset-free
constructor ("avoid resampling time-outs"). -/
def FirstPassageRate.resample (r : FirstPassageRate) (idx : ℕ → ℕ) : FirstPassageRate where
  concentration := r.concentration
  times := (List.range r.times.length).map (fun i => r.times.getD (idx i) 0)
  timeouts := []

/-- Whether the `if len(self.timeouts) > 0` diagnostic block of
`FirstPassageRate.kEff` (line 333) runs. -/
def FirstPassageRate.timeoutChecksRun (r : FirstPassageRate) : Bool :=
  decide (0 < r.timeouts.length)

/-- `FirstPassageRate.kEff` (lines 331 to 348): when there are timeouts,
each must pass the three `assert` statements (`type_name == 'Time'`,
`tag == None`, `time >= 10.0`) or the call raises `AssertionError`;
then `1 / (np.mean(times) * concentration)`. -/
def FirstPassageRate.kEff (r : FirstPassageRate) : Except String PFloat :=
  if 0 < r.timeouts.length ∧
      ¬ (∀ i ∈ r.timeouts, i.type_name = "Time" ∧ i.tag = none ∧ (10 : ℚ) ≤ i.time) then
    Except.error "AssertionError"
  else
    Except.ok (pDiv (some 1) (pMul (pMean r.times) (some r.concentration)))

/-- `Bootstrap.process` line 368: `N = 400`. -/
def bootstrapN : ℕ := 400

/-- The state effect of `Bootstrap.process` lines 370 and 371 on the
caller's estimator: when a concentration is given, `self.myRates.z`
is assigned, mutating the object the caller passed in. -/
def Bootstrap.updateRates (myRates : FirstStepRate) (concentration : Option ℚ) :
    FirstStepRate :=
  match concentration with
  | none => myRates
  | some c => { myRates with z := c }

/-- `Bootstrap.process` lines 373 to 384: the 400 point estimates, in
draw order, before the sort call.  `idx i` is the index stream the
`i`-th resample consumes. -/
def Bootstrap.effectiveRatesUnsorted (myRates : FirstStepRate) (concentration : Option ℚ)
    (computek1 : Bool) (idx : ℕ → ℕ → ℕ) : List PFloat :=
  let r := Bootstrap.updateRates myRates concentration
  (List.range bootstrapN).map (fun i =>
    let sample := r.resample (idx i)
    if computek1 then sample.k1 else sample.kEff none)

/-- The message of the `TypeError` that Python 3.10 raises for the call
on line 386. -/
def pySortCmpMessage : String :=
  "TypeError: cmp is an invalid keyword argument for sort()"

/-- Line 386, `self.effectiveRates.sort(cmp=None, key=None, reverse=False)`,
under Python 3.10 semantics: `list.sort` accepts only the keyword
arguments `key` and `reverse`, so passing `cmp` raises `TypeError`
before any element is compared or reordered, for every list. -/
def pyListSortWithCmpKeyword (_l : List PFloat) : Except String (List PFloat) :=
  Except.error pySortCmpMessage

/-- `Bootstrap.process` (lines 360 to 389): build the 400 estimates,
then sort them, which under Python 3.10 raises. -/
def Bootstrap.process (myRates : FirstStepRate) (concentration : Option ℚ)
    (computek1 : Bool) (idx : ℕ → ℕ → ℕ) : Except String (List PFloat) :=
  pyListSortWithCmpKeyword
    (Bootstrap.effectiveRatesUnsorted myRates concentration computek1 idx)

/-! Dataset-level aggregates, written directly from the spec's wording
(count of Success trials, mean collision rate over Success trials, and
so on), to compare the object's derived fields against. -/

/-- The Success trials of a dataset. -/
def successTrials (dataset : List TrialResult) : List TrialResult :=
  dataset.filter (fun t => t.tag == some Tag.success)

/-- The Failure trials of a dataset. -/
def failureTrials (dataset : List TrialResult) : List TrialResult :=
  dataset.filter (fun t => t.tag == some Tag.failure)

/-- Count of Success trials. -/
def nSuccess (dataset : List TrialResult) : ℕ := (successTrials dataset).length

/-- Count of Failure trials. -/
def nFailure (dataset : List TrialResult) : ℕ := (failureTrials dataset).length

/-- Collision rates of the Success trials. -/
def successCollisions (dataset : List TrialResult) : List ℚ :=
  (successTrials dataset).map (fun t => t.collision_rate)

/-- Collision rates of the Failure trials. -/
def failureCollisions (dataset : List TrialResult) : List ℚ :=
  (failureTrials dataset).map (fun t => t.collision_rate)

/-- Elapsed times of the Success trials. -/
def successTimes (dataset : List TrialResult) : List ℚ :=
  (successTrials dataset).map (fun t => t.time)

/-- Elapsed times of the Failure trials. -/
def failureTimes (dataset : List TrialResult) : List ℚ :=
  (failureTrials dataset).map (fun t => t.time)

/-- Arithmetic mean as an exact rational (sum over length; the junk
value on the empty list is `0/0 = 0` and is never relied upon). -/
def specMean (l : List ℚ) : ℚ := l.sum / (l.length : ℚ)

/-! Basic facts about the modelled float arithmetic. -/

@[simp]
lemma pAdd_none_left (x : PFloat) : pAdd none x = none := by cases x <;> rfl

@[simp]
lemma pAdd_none_right (x : PFloat) : pAdd x none = none := by cases x <;> rfl

@[simp]
lemma pAdd_some_some (a b : ℚ) : pAdd (some a) (some b) = some (a + b) := rfl

@[simp]
lemma pMul_none_left (x : PFloat) : pMul none x = none := by cases x <;> rfl

@[simp]
lemma pMul_none_right (x : PFloat) : pMul x none = none := by cases x <;> rfl

@[simp]
lemma pMul_some_some (a b : ℚ) : pMul (some a) (some b) = some (a * b) := rfl

@[simp]
lemma pDiv_none_left (x : PFloat) : pDiv none x = none := by cases x <;> rfl

@[simp]
lemma pDiv_none_right (x : PFloat) : pDiv x none = none := by cases x <;> rfl

lemma pDiv_some_some (a b : ℚ) (hb : b ≠ 0) : pDiv (some a) (some b) = some (a / b) := by
  simp [pDiv, hb]

@[simp]
lemma pMean_nil : pMean [] = none := rfl

lemma pMean_eq_specMean (l : List ℚ) (h : l ≠ []) : pMean l = some (specMean l) := by
  simp [pMean, specMean, h]

lemma pMean_perm (l1 l2 : List ℚ) (h : l1.Perm l2) : pMean l1 = pMean l2 := by
  rcases eq_or_ne l1 [] with h1 | h1
  · subst h1
    simp [List.Perm.eq_nil h.symm]
  · have h2 : l2 ≠ [] := by
      intro h2
      exact h1 (List.Perm.eq_nil (h2 ▸ h))
    simp [pMean, h1, h2, h.sum_eq, h.length_eq]

lemma specMean_pos (l : List ℚ) (h : l ≠ []) (hp : ∀ x ∈ l, 0 < x) :
    0 < specMean l := by
  have hs : 0 < l.sum := List.sum_pos l hp h
  have hl : 0 < (l.length : ℚ) := by
    have := List.length_pos.mpr h
    exact_mod_cast this
  exact div_pos hs hl

lemma specMean_nonneg (l : List ℚ) (hp : ∀ x ∈ l, 0 ≤ x) : 0 ≤ specMean l := by
  have hs : 0 ≤ l.sum := List.sum_nonneg hp
  have hl : 0 ≤ (l.length : ℚ) := by positivity
  exact div_nonneg hs hl

/-! Bridge lemmas: the object's derived arrays, built on lines 101 to 109
out of the stored indicator arrays, equal the aggregates computed
directly over the dataset. -/

lemma flags_filter (dataset : List TrialResult) (f : TrialResult → ℚ) (tg : Tag) :
    (((dataset.map f).zip
        (dataset.map (fun i => if i.tag = some tg then 1 else 0))).filter
      (fun p => p.2 == 1)).map (fun p => p.1)
    = ((dataset.filter (fun t => t.tag == some tg)).map f) := by
  induction dataset with
  | nil => rfl
  | cons t ds ih =>
    by_cases h : t.tag = some tg <;> simp [h, ih]

lemma flags_sum (dataset : List TrialResult) (tg : Tag) :
    (dataset.map (fun i => if i.tag = some tg then 1 else 0)).sum
    = (dataset.filter (fun t => t.tag == some tg)).length := by
  induction dataset with
  | nil => rfl
  | cons t ds ih =>
    by_cases h : t.tag = some tg <;> simp [h, ih, Nat.add_comm]

lemma nForward_ofDataset (ds : List TrialResult) (z : ℚ) :
    (FirstStepRate.ofDataset ds z).nForward = nSuccess ds :=
  flags_sum ds Tag.success

lemma nReverse_ofDataset (ds : List TrialResult) (z : ℚ) :
    (FirstStepRate.ofDataset ds z).nReverse = nFailure ds :=
  flags_sum ds Tag.failure

lemma nTotal_ofDataset (ds : List TrialResult) (z : ℚ) :
    (FirstStepRate.ofDataset ds z).nTotal = nSuccess ds + nFailure ds := by
  unfold FirstStepRate.nTotal
  rw [nForward_ofDataset, nReverse_ofDataset]

lemma collision_forward_ofDataset (ds : List TrialResult) (z : ℚ) :
    (FirstStepRate.ofDataset ds z).collision_forward = successCollisions ds :=
  flags_filter ds (fun t => t.collision_rate) Tag.success

lemma collision_reverse_ofDataset (ds : List TrialResult) (z : ℚ) :
    (FirstStepRate.ofDataset ds z).collision_reverse = failureCollisions ds :=
  flags_filter ds (fun t => t.collision_rate) Tag.failure

lemma forward_times_ofDataset (ds : List TrialResult) (z : ℚ) :
    (FirstStepRate.ofDataset ds z).forward_times = successTimes ds :=
  flags_filter ds (fun t => t.time) Tag.success

lemma reverse_times_ofDataset (ds : List TrialResult) (z : ℚ) :
    (FirstStepRate.ofDataset ds z).reverse_times = failureTimes ds :=
  flags_filter ds (fun t => t.time) Tag.failure

lemma ofDataset_z (ds : List TrialResult) (z : ℚ) :
    (FirstStepRate.ofDataset ds z).z = z := rfl

/-- C1: for every first-step ResultSet whose trials all have outcome
Success or Failure, `k1` returns exactly `MINIMUM_RATE = 1e-18` when
`nTotal = 0`, and otherwise returns `(nForward / nTotal) *
mean(collisionRate over Success trials)` (NaN when there is no Success
trial to average over). -/
theorem k1_formula (ds : List TrialResult) (z : ℚ)
    (hall : ∀ t ∈ ds, t.tag = some Tag.success ∨ t.tag = some Tag.failure) :
    (FirstStepRate.ofDataset ds z).k1 =
      if nSuccess ds + nFailure ds = 0 then some MINIMUM_RATE
      else (pMean (successCollisions ds)).map
        (fun m => ((nSuccess ds : ℚ) / ((nSuccess ds : ℚ) + (nFailure ds : ℚ))) * m) := by
  unfold FirstStepRate.k1
  rw [nTotal_ofDataset, nForward_ofDataset, collision_forward_ofDataset]
  by_cases h : nSuccess ds + nFailure ds = 0
  · simp [h]
  · rw [if_neg h, if_neg h]
    cases hm : pMean (successCollisions ds) with
    | none => simp
    | some m => simp [Nat.cast_add]

/-- Witness for `k1_formula` at a one-Success dataset. -/
theorem k1_formula_witness :
    (FirstStepRate.ofDataset [⟨some Tag.success, 1, 2, "Time"⟩] 1).k1 =
      if nSuccess [⟨some Tag.success, 1, 2, "Time"⟩]
          + nFailure [⟨some Tag.success, 1, 2, "Time"⟩] = 0 then some MINIMUM_RATE
      else (pMean (successCollisions [⟨some Tag.success, 1, 2, "Time"⟩])).map
        (fun m => ((nSuccess [⟨some Tag.success, 1, 2, "Time"⟩] : ℚ) /
          ((nSuccess [⟨some Tag.success, 1, 2, "Time"⟩] : ℚ) +
            (nFailure [⟨some Tag.success, 1, 2, "Time"⟩] : ℚ))) * m) :=
  k1_formula [⟨some Tag.success, 1, 2, "Time"⟩] 1 (by decide)

/-- C3, counterexample to "neither function ever returns NaN or
infinity": on the one-Failure dataset `k1` is NaN (`np.mean` of the
empty Success array), and on the one-Success dataset `kEff` is NaN
(`np.mean` of the empty Failure array propagates). -/
theorem k1_kEff_nan_counterexample :
    (FirstStepRate.ofDataset [⟨some Tag.failure, 1, 1, "Time"⟩] 1).k1 = none ∧
    (FirstStepRate.ofDataset [⟨some Tag.success, 1, 1, "Time"⟩] 1).kEff (some 1) = none :=
  ⟨by decide, by decide⟩

/-- C3 amended: `k1` returns exactly `MINIMUM_RATE` whenever
`nTotal = 0` and `kEff` returns exactly `MINIMUM_RATE` whenever
`nForward = 0`; but the functions can return NaN: `k1` is NaN whenever
`nForward = 0` while `nTotal` is not, and `kEff` is NaN whenever
`nForward` is positive while `nReverse = 0`. -/
theorem floor_and_nan (ds : List TrialResult) (z : ℚ) :
    ((FirstStepRate.ofDataset ds z).nTotal = 0 →
        (FirstStepRate.ofDataset ds z).k1 = some MINIMUM_RATE) ∧
    ((FirstStepRate.ofDataset ds z).nForward = 0 →
        (FirstStepRate.ofDataset ds z).kEff (some z) = some MINIMUM_RATE) ∧
    ((FirstStepRate.ofDataset ds z).nForward = 0 →
      (FirstStepRate.ofDataset ds z).nTotal ≠ 0 →
        (FirstStepRate.ofDataset ds z).k1 = none) ∧
    (0 < (FirstStepRate.ofDataset ds z).nForward →
      (FirstStepRate.ofDataset ds z).nReverse = 0 →
        (FirstStepRate.ofDataset ds z).kEff (some z) = none) := by
  refine ⟨?_, ?_, ?_, ?_⟩
  · intro h
    simp [FirstStepRate.k1, h]
  · intro h
    simp [FirstStepRate.kEff, h]
  · intro h0 h1
    rw [nForward_ofDataset] at h0
    have hS : successTrials ds = [] := List.length_eq_zero.mp h0
    rw [FirstStepRate.k1, if_neg h1, collision_forward_ofDataset, successCollisions, hS]
    simp
  · intro hF h0
    rw [nReverse_ofDataset] at h0
    have hFail : failureTrials ds = [] := List.length_eq_zero.mp h0
    have hne : ¬ (FirstStepRate.ofDataset ds z).nForward = 0 := Nat.pos_iff_ne_zero.mp hF
    simp [FirstStepRate.kEff, hne, reverse_times_ofDataset, failureTimes, hFail]

/-- C2: with at least one Success and one Failure trial, a positive
concentration, positive collision-rate means and non-negative time
means (so every quantity the formula divides by is nonzero, as in any
physical dataset), `kEff(z)` equals `1 / (dTcorrect * z)` with
`dTcorrect = dTfail * (nReverse / nForward) + dTforward`,
`dTforward = 1 / (meanCollisionForward * z) + meanTimeForward` and
`dTfail = 1 / (meanCollisionReverse * z) + meanTimeReverse`, the means
taken over the Success trials (forward) and the Failure trials
(reverse). -/
theorem kEff_formula (ds : List TrialResult) (z : ℚ)
    (hF : 0 < nSuccess ds) (hR : 0 < nFailure ds) (hz : 0 < z)
    (hmf : 0 < specMean (successCollisions ds))
    (hmr : 0 < specMean (failureCollisions ds))
    (htf : 0 ≤ specMean (successTimes ds))
    (htr : 0 ≤ specMean (failureTimes ds)) :
    (FirstStepRate.ofDataset ds z).kEff (some z) =
      some (1 / (((1 / (specMean (failureCollisions ds) * z) + specMean (failureTimes ds))
            * ((nFailure ds : ℚ) / (nSuccess ds : ℚ))
          + (1 / (specMean (successCollisions ds) * z) + specMean (successTimes ds))) * z)) := by
  have hSne : successTrials ds ≠ [] := List.ne_nil_of_length_pos hF
  have hRne : failureTrials ds ≠ [] := List.ne_nil_of_length_pos hR
  have hSC : successCollisions ds ≠ [] := by
    simp only [successCollisions, ne_eq, List.map_eq_nil_iff]
    exact hSne
  have hRC : failureCollisions ds ≠ [] := by
    simp only [failureCollisions, ne_eq, List.map_eq_nil_iff]
    exact hRne
  have hST : successTimes ds ≠ [] := by
    simp only [successTimes, ne_eq, List.map_eq_nil_iff]
    exact hSne
  have hRT : failureTimes ds ≠ [] := by
    simp only [failureTimes, ne_eq, List.map_eq_nil_iff]
    exact hRne
  have hz' : z ≠ 0 := ne_of_gt hz
  have hcfz : specMean (successCollisions ds) * z ≠ 0 := mul_ne_zero (ne_of_gt hmf) hz'
  have hcrz : specMean (failureCollisions ds) * z ≠ 0 := mul_ne_zero (ne_of_gt hmr) hz'
  have hdf : 0 < 1 / (specMean (successCollisions ds) * z) + specMean (successTimes ds) := by
    have : 0 < 1 / (specMean (successCollisions ds) * z) := by positivity
    linarith
  have hdr : 0 < 1 / (specMean (failureCollisions ds) * z) + specMean (failureTimes ds) := by
    have : 0 < 1 / (specMean (failureCollisions ds) * z) := by positivity
    linarith
  have hmult : 0 ≤ (nFailure ds : ℚ) / (nSuccess ds : ℚ) := by positivity
  have hcorr :
      0 < (1 / (specMean (failureCollisions ds) * z) + specMean (failureTimes ds))
            * ((nFailure ds : ℚ) / (nSuccess ds : ℚ))
          + (1 / (specMean (successCollisions ds) * z) + specMean (successTimes ds)) := by
    have h1 : 0 ≤ (1 / (specMean (failureCollisions ds) * z) + specMean (failureTimes ds))
        * ((nFailure ds : ℚ) / (nSuccess ds : ℚ)) := mul_nonneg hdr.le hmult
    linarith
  have hne : ¬ (FirstStepRate.ofDataset ds z).nForward = 0 := by
    rw [nForward_ofDataset]
    exact Nat.pos_iff_ne_zero.mp hF
  rw [FirstStepRate.kEff]
  simp only [Option.getD_some, if_neg hne]
  rw [forward_times_ofDataset, reverse_times_ofDataset, collision_forward_ofDataset,
    collision_reverse_ofDataset, nForward_ofDataset, nReverse_ofDataset,
    pMean_eq_specMean _ hSC, pMean_eq_specMean _ hRC,
    pMean_eq_specMean _ hST, pMean_eq_specMean _ hRT,
    pMul_some_some, pMul_some_some,
    pDiv_some_some _ _ hcfz, pDiv_some_some _ _ hcrz,
    pAdd_some_some, pAdd_some_some, pMul_some_some, pAdd_some_some,
    pDiv_some_some _ _ (ne_of_gt hcorr), pDiv_some_some _ _ hz', pMul_some_some,
    div_mul_div_comm, one_mul]

/-- A concrete two-trial dataset: one Success with time 1 and collision
rate 1, one Failure with time 2 and collision rate 1. -/
def dsPair : List TrialResult :=
  [⟨some Tag.success, 1, 1, "Time"⟩, ⟨some Tag.failure, 2, 1, "Time"⟩]

/-- Witness for `kEff_formula` at `dsPair` and concentration 1; the
value is `1/5`. -/
theorem kEff_formula_witness :
    (FirstStepRate.ofDataset dsPair 1).kEff (some 1) =
      some (1 / (((1 / (specMean (failureCollisions dsPair) * 1)
            + specMean (failureTimes dsPair))
            * ((nFailure dsPair : ℚ) / (nSuccess dsPair : ℚ))
          + (1 / (specMean (successCollisions dsPair) * 1)
            + specMean (successTimes dsPair))) * 1)) :=
  kEff_formula dsPair 1
    (by decide) (by decide) (by norm_num)
    (by rw [show successCollisions dsPair = [(1 : ℚ)] from rfl]; norm_num [specMean])
    (by rw [show failureCollisions dsPair = [(1 : ℚ)] from rfl]; norm_num [specMean])
    (by rw [show successTimes dsPair = [(1 : ℚ)] from rfl]; norm_num [specMean])
    (by rw [show failureTimes dsPair = [(2 : ℚ)] from rfl]; norm_num [specMean])

/-- C4: merging two first-step ResultSets built at the same
concentration yields exactly the state built from the concatenated
dataset, so every derived aggregate (counts, filtered collision-rate
and time arrays, hence their means) and both rates `k1` and `kEff`
agree with those of an estimator constructed over the combined data. -/
theorem merge_is_union (ds1 ds2 : List TrialResult) (z : ℚ) (c : Option ℚ) :
    (FirstStepRate.ofDataset ds1 z).merge (FirstStepRate.ofDataset ds2 z)
        = FirstStepRate.ofDataset (ds1 ++ ds2) z ∧
    ((FirstStepRate.ofDataset ds1 z).merge (FirstStepRate.ofDataset ds2 z)).nForward
        = nSuccess (ds1 ++ ds2) ∧
    ((FirstStepRate.ofDataset ds1 z).merge (FirstStepRate.ofDataset ds2 z)).nReverse
        = nFailure (ds1 ++ ds2) ∧
    ((FirstStepRate.ofDataset ds1 z).merge (FirstStepRate.ofDataset ds2 z)).nTotal
        = nSuccess (ds1 ++ ds2) + nFailure (ds1 ++ ds2) ∧
    ((FirstStepRate.ofDataset ds1 z).merge (FirstStepRate.ofDataset ds2 z)).collision_forward
        = successCollisions (ds1 ++ ds2) ∧
    ((FirstStepRate.ofDataset ds1 z).merge (FirstStepRate.ofDataset ds2 z)).collision_reverse
        = failureCollisions (ds1 ++ ds2) ∧
    ((FirstStepRate.ofDataset ds1 z).merge (FirstStepRate.ofDataset ds2 z)).forward_times
        = successTimes (ds1 ++ ds2) ∧
    ((FirstStepRate.ofDataset ds1 z).merge (FirstStepRate.ofDataset ds2 z)).reverse_times
        = failureTimes (ds1 ++ ds2) ∧
    ((FirstStepRate.ofDataset ds1 z).merge (FirstStepRate.ofDataset ds2 z)).k1
        = (FirstStepRate.ofDataset (ds1 ++ ds2) z).k1 ∧
    ((FirstStepRate.ofDataset ds1 z).merge (FirstStepRate.ofDataset ds2 z)).kEff c
        = (FirstStepRate.ofDataset (ds1 ++ ds2) z).kEff c := by
  have h : (FirstStepRate.ofDataset ds1 z).merge (FirstStepRate.ofDataset ds2 z)
      = FirstStepRate.ofDataset (ds1 ++ ds2) z := by
    simp [FirstStepRate.merge, FirstStepRate.ofDataset]
  refine ⟨h, ?_, ?_, ?_, ?_, ?_, ?_, ?_, ?_, ?_⟩ <;> rw [h] <;>
    first
      | rfl
      | exact nForward_ofDataset _ z
      | exact nReverse_ofDataset _ z
      | exact nTotal_ofDataset _ z
      | exact collision_forward_ofDataset _ z
      | exact collision_reverse_ofDataset _ z
      | exact forward_times_ofDataset _ z
      | exact reverse_times_ofDataset _ z

/-- C5: `k1` and `kEff` are symmetric functions of the multiset of
trial records: permuting the dataset leaves both rates unchanged, at
the stored concentration and at any explicitly passed one. -/
theorem rates_perm_invariant (ds1 ds2 : List TrialResult) (z : ℚ) (c : Option ℚ)
    (h : ds1.Perm ds2) :
    (FirstStepRate.ofDataset ds1 z).k1 = (FirstStepRate.ofDataset ds2 z).k1 ∧
    (FirstStepRate.ofDataset ds1 z).kEff c = (FirstStepRate.ofDataset ds2 z).kEff c := by
  have hS : nSuccess ds1 = nSuccess ds2 := by
    unfold nSuccess successTrials
    exact (h.filter _).length_eq
  have hFa : nFailure ds1 = nFailure ds2 := by
    unfold nFailure failureTrials
    exact (h.filter _).length_eq
  have m1 : pMean (successCollisions ds1) = pMean (successCollisions ds2) := by
    apply pMean_perm
    unfold successCollisions successTrials
    exact (h.filter _).map _
  have m2 : pMean (failureCollisions ds1) = pMean (failureCollisions ds2) := by
    apply pMean_perm
    unfold failureCollisions failureTrials
    exact (h.filter _).map _
  have m3 : pMean (successTimes ds1) = pMean (successTimes ds2) := by
    apply pMean_perm
    unfold successTimes successTrials
    exact (h.filter _).map _
  have m4 : pMean (failureTimes ds1) = pMean (failureTimes ds2) := by
    apply pMean_perm
    unfold failureTimes failureTrials
    exact (h.filter _).map _
  constructor
  · rw [FirstStepRate.k1, FirstStepRate.k1, nTotal_ofDataset, nTotal_ofDataset,
      nForward_ofDataset, nForward_ofDataset, collision_forward_ofDataset,
      collision_forward_ofDataset, hS, hFa, m1]
  · rw [FirstStepRate.kEff, FirstStepRate.kEff, ofDataset_z, ofDataset_z,
      nForward_ofDataset, nForward_ofDataset, nReverse_ofDataset, nReverse_ofDataset,
      forward_times_ofDataset, forward_times_ofDataset,
      reverse_times_ofDataset, reverse_times_ofDataset,
      collision_forward_ofDataset, collision_forward_ofDataset,
      collision_reverse_ofDataset, collision_reverse_ofDataset,
      hS, hFa, m1, m2, m3, m4]

/-- Witness for `rates_perm_invariant`: swapping the two records of a
two-trial dataset changes neither rate. -/
theorem rates_perm_invariant_witness :
    (FirstStepRate.ofDataset
        [⟨some Tag.success, 1, 1, "Time"⟩, ⟨some Tag.failure, 2, 1, "Time"⟩] 1).k1
      = (FirstStepRate.ofDataset
        [⟨some Tag.failure, 2, 1, "Time"⟩, ⟨some Tag.success, 1, 1, "Time"⟩] 1).k1 ∧
    (FirstStepRate.ofDataset
        [⟨some Tag.success, 1, 1, "Time"⟩, ⟨some Tag.failure, 2, 1, "Time"⟩] 1).kEff (some 1)
      = (FirstStepRate.ofDataset
        [⟨some Tag.failure, 2, 1, "Time"⟩, ⟨some Tag.success, 1, 1, "Time"⟩] 1).kEff (some 1) :=
  rates_perm_invariant
    [⟨some Tag.success, 1, 1, "Time"⟩, ⟨some Tag.failure, 2, 1, "Time"⟩]
    [⟨some Tag.failure, 2, 1, "Time"⟩, ⟨some Tag.success, 1, 1, "Time"⟩] 1 (some 1)
    (List.Perm.swap (⟨some Tag.failure, 2, 1, "Time"⟩ : TrialResult)
      (⟨some Tag.success, 1, 1, "Time"⟩ : TrialResult) [])

/-- C6: `Bootstrap.process` builds exactly `N = 400` point
estimates, each from a resample of the same cardinality as the backing
dataset that inherits its concentration — and then, under Python 3.10,
unconditionally raises `TypeError` at the `sort(cmp=None, ...)` call,
so the sorted list the claim promises is never produced. -/
theorem bootstrap_process_py3_raises (myRates : FirstStepRate) (conc : Option ℚ)
    (computek1 : Bool) (idx : ℕ → ℕ → ℕ) :
    (Bootstrap.effectiveRatesUnsorted myRates conc computek1 idx).length = bootstrapN ∧
    (∀ i, ((Bootstrap.updateRates myRates conc).resample (idx i)).collision_rates.length
        = myRates.collision_rates.length) ∧
    (∀ i, ((Bootstrap.updateRates myRates conc).resample (idx i)).z
        = (Bootstrap.updateRates myRates conc).z) ∧
    Bootstrap.process myRates conc computek1 idx = Except.error pySortCmpMessage := by
  refine ⟨?_, ?_, fun i => rfl, rfl⟩
  · simp [Bootstrap.effectiveRatesUnsorted]
  · intro i
    cases conc <;> simp [Bootstrap.updateRates, FirstStepRate.resample]

/-- C7, counterexample to "resampling an empty ResultSet must fail":
`resample` on the empty first-step dataset succeeds and returns the
empty estimator, whose `kEff` is the floor value, and all 400 bootstrap
point estimates are exactly `MINIMUM_RATE`. -/
theorem empty_resample_floor_counterexample :
    (FirstStepRate.ofDataset [] 1).resample (fun _ => 0) = FirstStepRate.ofDataset [] 1 ∧
    ((FirstStepRate.ofDataset [] 1).resample (fun _ => 0)).kEff none = some MINIMUM_RATE ∧
    Bootstrap.effectiveRatesUnsorted (FirstStepRate.ofDataset [] 1) none false (fun _ _ => 0)
      = List.replicate bootstrapN (some MINIMUM_RATE) := by
  refine ⟨rfl, rfl, ?_⟩
  apply List.eq_replicate_iff.mpr
  constructor
  · simp [Bootstrap.effectiveRatesUnsorted]
  · intro b hb
    simp only [Bootstrap.effectiveRatesUnsorted, List.mem_map] at hb
    obtain ⟨i, _, hi⟩ := hb
    exact hi ▸ rfl

/-- C7 amended: resampling a size-0 first-step ResultSet does not fail:
it returns an estimator over the empty dataset, every one of the 400
bootstrap point estimates (for `k1` and for `kEff` alike, at any
requested concentration) is exactly the floor `MINIMUM_RATE`, and the
only error the Bootstrap constructor raises is the Python 3
`TypeError` of the final sort call, which is unrelated to emptiness. -/
theorem empty_resample_floor (z : ℚ) (j : ℕ → ℕ) (conc : Option ℚ) (ck : Bool)
    (idx : ℕ → ℕ → ℕ) :
    (FirstStepRate.ofDataset [] z).resample j = FirstStepRate.ofDataset [] z ∧
    Bootstrap.effectiveRatesUnsorted (FirstStepRate.ofDataset [] z) conc ck idx
      = List.replicate bootstrapN (some MINIMUM_RATE) ∧
    Bootstrap.process (FirstStepRate.ofDataset [] z) conc ck idx
      = Except.error pySortCmpMessage := by
  refine ⟨rfl, ?_, rfl⟩
  have hup : Bootstrap.updateRates (FirstStepRate.ofDataset [] z) conc
      = FirstStepRate.ofDataset [] (conc.getD z) := by
    cases conc <;> rfl
  apply List.eq_replicate_iff.mpr
  constructor
  · simp [Bootstrap.effectiveRatesUnsorted]
  · intro b hb
    simp only [Bootstrap.effectiveRatesUnsorted, List.mem_map, hup] at hb
    obtain ⟨i, _, hi⟩ := hb
    cases ck <;> exact hi ▸ rfl

/-- C8: merging two first-step ResultSets whose concentrations differ
does print the error message (the reporting flag is set), but the merge
is not fatal: the datasets are combined regardless, exactly as a merge
of matching concentrations would, keeping the receiver's `z`. -/
theorem merge_mismatched_still_combines :
    FirstStepRate.mergeReportsError
        (FirstStepRate.ofDataset [⟨some Tag.success, 1, 1, "Time"⟩] 1)
        (FirstStepRate.ofDataset [⟨some Tag.failure, 2, 2, "Time"⟩] 2) = true ∧
    (FirstStepRate.ofDataset [⟨some Tag.success, 1, 1, "Time"⟩] 1).merge
        (FirstStepRate.ofDataset [⟨some Tag.failure, 2, 2, "Time"⟩] 2)
      = FirstStepRate.ofDataset
          [⟨some Tag.success, 1, 1, "Time"⟩, ⟨some Tag.failure, 2, 2, "Time"⟩] 1 ∧
    ((FirstStepRate.ofDataset [⟨some Tag.success, 1, 1, "Time"⟩] 1).merge
        (FirstStepRate.ofDataset [⟨some Tag.failure, 2, 2, "Time"⟩] 2)).nTotal = 2 := by
  refine ⟨?_, rfl, rfl⟩
  rw [FirstStepRate.mergeReportsError, decide_eq_true_eq, ofDataset_z, ofDataset_z]
  norm_num

/-- C9: constructing a Bootstrap with an explicit concentration `c`
assigns `c` to the caller's estimator (`self.myRates.z = concentration`
on line 371), so a subsequent `kEff()` call on the caller's own object
with no argument computes at `c`, not at the concentration the
estimator was constructed with. -/
theorem bootstrap_updates_concentration (myRates : FirstStepRate) (c : ℚ) :
    (Bootstrap.updateRates myRates (some c)).z = c ∧
    (Bootstrap.updateRates myRates (some c)).kEff none = myRates.kEff (some c) :=
  ⟨rfl, rfl⟩

lemma getD_mem_of_lt (l : List ℚ) (n : ℕ) (d : ℚ) (h : n < l.length) :
    l.getD n d ∈ l := by
  induction l generalizing n with
  | nil => simp at h
  | cons a t ih =>
    cases n with
    | zero => simp [List.getD]
    | succ k =>
      have hk : k < t.length := Nat.lt_of_succ_lt_succ h
      simp only [List.getD_cons_succ]
      exact List.mem_cons_of_mem a (ih k hk)

/-- C10: a resampled first-passage estimator has an empty `timeouts`
list and the same concentration, while its `times` are drawn from the
original `times` array — which holds the recorded elapsed time of every
trial, the non-Success (timeout) ones included; consequently `kEff` on
the resampled estimator skips the timeout consistency checks and never
raises the assertion. -/
theorem first_passage_resample_drops_timeouts (ds : List TrialResult) (c : ℚ)
    (idx : ℕ → ℕ) (h : ∀ i, idx i < ds.length) :
    ((FirstPassageRate.ofDataset ds c).resample idx).timeouts = [] ∧
    ((FirstPassageRate.ofDataset ds c).resample idx).concentration = c ∧
    (FirstPassageRate.ofDataset ds c).times = ds.map (fun t => t.time) ∧
    (∀ t ∈ ds, t.time ∈ (FirstPassageRate.ofDataset ds c).times) ∧
    ((FirstPassageRate.ofDataset ds c).resample idx).times.length
        = (FirstPassageRate.ofDataset ds c).times.length ∧
    (∀ x ∈ ((FirstPassageRate.ofDataset ds c).resample idx).times,
        x ∈ (FirstPassageRate.ofDataset ds c).times) ∧
    ((FirstPassageRate.ofDataset ds c).resample idx).timeoutChecksRun = false ∧
    ((FirstPassageRate.ofDataset ds c).resample idx).kEff
      = Except.ok (pDiv (some 1)
          (pMul (pMean ((FirstPassageRate.ofDataset ds c).resample idx).times) (some c))) := by
  refine ⟨rfl, rfl, rfl, ?_, ?_, ?_, rfl, rfl⟩
  · intro t ht
    exact List.mem_map_of_mem (fun t => t.time) ht
  · simp [FirstPassageRate.resample]
  · intro x hx
    simp only [FirstPassageRate.resample, List.mem_map, List.mem_range] at hx
    obtain ⟨i, _, hi⟩ := hx
    have hlen : idx i < (FirstPassageRate.ofDataset ds c).times.length := by
      simpa [FirstPassageRate.ofDataset] using h i
    exact hi ▸ getD_mem_of_lt _ _ _ hlen

/-- Witness for `first_passage_resample_drops_timeouts` on a two-trial
dataset whose first record is a timeout (tag `None`, time 20). -/
theorem first_passage_resample_witness :
    ((FirstPassageRate.ofDataset
        [⟨none, 20, 1, "Time"⟩, ⟨some Tag.success, 1, 1, "Time"⟩] 2).resample
          (fun _ => 0)).timeouts = [] ∧
    ((FirstPassageRate.ofDataset
        [⟨none, 20, 1, "Time"⟩, ⟨some Tag.success, 1, 1, "Time"⟩] 2).resample
          (fun _ => 0)).concentration = 2 ∧
    (FirstPassageRate.ofDataset
        [⟨none, 20, 1, "Time"⟩, ⟨some Tag.success, 1, 1, "Time"⟩] 2).times
      = [⟨none, 20, 1, "Time"⟩, (⟨some Tag.success, 1, 1, "Time"⟩ : TrialResult)].map
          (fun t => t.time) ∧
    (∀ t ∈ [⟨none, 20, 1, "Time"⟩, (⟨some Tag.success, 1, 1, "Time"⟩ : TrialResult)],
      t.time ∈ (FirstPassageRate.ofDataset
        [⟨none, 20, 1, "Time"⟩, ⟨some Tag.success, 1, 1, "Time"⟩] 2).times) ∧
    ((FirstPassageRate.ofDataset
        [⟨none, 20, 1, "Time"⟩, ⟨some Tag.success, 1, 1, "Time"⟩] 2).resample
          (fun _ => 0)).times.length
      = (FirstPassageRate.ofDataset
        [⟨none, 20, 1, "Time"⟩, ⟨some Tag.success, 1, 1, "Time"⟩] 2).times.length ∧
    (∀ x ∈ ((FirstPassageRate.ofDataset
        [⟨none, 20, 1, "Time"⟩, ⟨some Tag.success, 1, 1, "Time"⟩] 2).resample
          (fun _ => 0)).times,
      x ∈ (FirstPassageRate.ofDataset
        [⟨none, 20, 1, "Time"⟩, ⟨some Tag.success, 1, 1, "Time"⟩] 2).times) ∧
    ((FirstPassageRate.ofDataset
        [⟨none, 20, 1, "Time"⟩, ⟨some Tag.success, 1, 1, "Time"⟩] 2).resample
          (fun _ => 0)).timeoutChecksRun = false ∧
    ((FirstPassageRate.ofDataset
        [⟨none, 20, 1, "Time"⟩, ⟨some Tag.success, 1, 1, "Time"⟩] 2).resample
          (fun _ => 0)).kEff
      = Except.ok (pDiv (some 1)
          (pMul (pMean ((FirstPassageRate.ofDataset
            [⟨none, 20, 1, "Time"⟩, ⟨some Tag.success, 1, 1, "Time"⟩] 2).resample
              (fun _ => 0)).times) (some 2))) :=
  first_passage_resample_drops_timeouts
    [⟨none, 20, 1, "Time"⟩, ⟨some Tag.success, 1, 1, "Time"⟩] 2 (fun _ => 0)
    (fun _ => Nat.succ_pos 1)

end Multistrand
